import Mathlib

/-!
# Verification of the FinSearchComp page interaction controller

Shallow embedding of `src/script.js` (the client-side interaction layer of the
FinSearchComp project page): the card-modal controller, the findings carousel,
the lazy image/chart loading pipeline, and the Plotly leaderboard chart
definition.  JavaScript numbers that stay integral are modelled as `Int`
(with JS `%`, which truncates toward zero and yields NaN on a zero divisor,
modelled by `Option Int`); the chart's fractional scores are modelled as `ℚ`.
DOM state touched by the handlers is modelled as explicit record state, and
the asynchronous chart bootstrap as a step relation over an event alphabet.
-/

set_option autoImplicit false

namespace FinSearch

/-! ## Carousel controller (`initFindingsCarousel`, src/script.js lines 138-187)

`currentIndex` is a JS number; the prev/next handlers update it with the JS
`%` operator, which truncates toward zero and produces NaN when the divisor
is `0`.  `jsMod` returns `none` for the NaN case. -/

/-- JS `a % b` on integral numbers: truncated remainder, NaN (`none`) if `b = 0`. -/
def jsMod (a b : Int) : Option Int :=
  if b = 0 then none else some (a.tmod b)

/-- The `nextBtn` click handler: `currentIndex = (currentIndex + 1) % totalItems`. -/
def nextIndex (c n : Int) : Option Int := jsMod (c + 1) n

/-- The `prevBtn` click handler: `currentIndex = (currentIndex - 1 + totalItems) % totalItems`. -/
def prevIndex (c n : Int) : Option Int := jsMod (c - 1 + n) n

/-- An indicator click handler: `currentIndex = index`. -/
def goTo (index : Int) : Int := index

/-- The view state written by `updateCarousel` (src/script.js lines 174-186):
the track transform `translateX(-(currentIndex * 90)%)` and the indicators'
`active` classes. -/
structure CarouselView where
  /-- magnitude of the `translateX` offset, in percent: `currentIndex * 90` -/
  translatePct : Int
  /-- for each indicator position, whether it carries the `active` class -/
  indicatorActive : List Bool
  deriving Repr, DecidableEq

/-- Semantics of `updateCarousel()`: sets the transform to `currentIndex * 90`
percent and gives exactly the indicator at index `currentIndex` the `active`
class, removing it from every other indicator. -/
def updateCarousel (currentIndex : Int) (numIndicators : Nat) : CarouselView :=
  { translatePct := currentIndex * 90
    indicatorActive :=
      (List.range numIndicators).map (fun (i : Nat) => decide ((↑i : Int) = currentIndex)) }

/-! ## Defensive initialization (`initFindingsCarousel` guards, `initExpandButtons`,
src/script.js lines 101-135 and 138-163) -/

/-- Outcome of running a JS initialization function. -/
inductive JsOutcome
  | normal
  | earlyReturn
  | thrown (msg : String)
  deriving Repr, DecidableEq

/-- Whether the outcome is an uncaught exception. -/
def JsOutcome.raises : JsOutcome → Bool
  | .thrown _ => true
  | _ => false

/-- Which DOM lookups of `initFindingsCarousel` succeed (`true`) or return
`null` (`false`). -/
structure CarouselDom where
  carousel : Bool
  carouselInner : Bool
  prevBtn : Bool
  nextBtn : Bool
  deriving Repr, DecidableEq

/-- Control flow of `initFindingsCarousel` over the DOM lookups: only the root
`.findings-carousel` lookup is guarded (`if (!carousel) return;`).  The initial
`updateCarousel()` call then dereferences `carouselInner.style`, and the
navigation wiring dereferences `prevBtn.addEventListener` and
`nextBtn.addEventListener`; a `null` at any of those raises a TypeError. -/
def initFindingsCarousel (d : CarouselDom) : JsOutcome :=
  if d.carousel = false then .earlyReturn
  else if d.carouselInner = false then
    .thrown "Cannot read properties of null (reading style)"
  else if d.prevBtn = false then
    .thrown "Cannot read properties of null (reading addEventListener)"
  else if d.nextBtn = false then
    .thrown "Cannot read properties of null (reading addEventListener)"
  else .normal

/-- Outcome of `initExpandButtons` (src/script.js lines 101-107): with no
`.read-more-btn` elements it logs a message and returns. -/
inductive ExpandInit
  | loggedNoButtons (msg : String)
  | wired (numButtons : Nat)
  deriving Repr, DecidableEq

/-- The `initExpandButtons` guard over the number of `.read-more-btn` matches. -/
def initExpandButtons (numButtons : Nat) : ExpandInit :=
  if numButtons = 0 then .loggedNoButtons "No read more buttons found on the page"
  else .wired numButtons

/-- Outcome of an expand-button click handler (src/script.js lines 110-133). -/
inductive ExpandClick
  | loggedError (msg : String)
  | toggled
  deriving Repr, DecidableEq

/-- The expand-button click handler: missing `.card-content` ancestor or
missing `.card-text` child logs an error and aborts; otherwise it toggles. -/
def expandButtonClick (hasCardContent hasCardText : Bool) : ExpandClick :=
  if hasCardContent = false then .loggedError "Could not find parent card-content element"
  else if hasCardText = false then .loggedError "Could not find card-text element"
  else .toggled

/-! ## Card modals (`initCardModals`, src/script.js lines 17-78) -/

/-- The page-level presentation state the modal handlers mutate: the content
modal's title/body/display, the image modal's display, and
`document.body.style.overflow`. -/
structure PageState where
  modalTitle : String
  modalContent : String
  modalDisplay : String
  imageModalDisplay : String
  bodyOverflow : String
  deriving Repr, DecidableEq

/-- The shared open sequence (src/script.js lines 54-57 and 72-75): set
`modalTitle.textContent`, overwrite `modalContent.innerHTML`, show the content
modal, and lock page scroll. -/
def openContentModal (s : PageState) (title content : String) : PageState :=
  { s with modalTitle := title, modalContent := content,
           modalDisplay := "block", bodyOverflow := "hidden" }

/-- A card as the handlers read it: its `data-card` attribute, its `.title`
text and its `.card-full-content` markup. -/
structure Card where
  dataCard : Option String
  title : String
  fullContent : String
  deriving Repr, DecidableEq

/-- The card click handler (src/script.js lines 62-77): a bare click is a
no-op when `getAttribute('data-card') === 'data-distribution'`, otherwise it
opens the content modal with the card's title and full content. -/
def cardClick (card : Card) (s : PageState) : PageState :=
  if card.dataCard = some "data-distribution" then s
  else openContentModal s card.title card.fullContent

/-- The read-more button handler (src/script.js lines 47-59): always opens the
content modal with the enclosing card's fields; `stopPropagation()` keeps the
card-level handler from also firing. -/
def readMoreClick (card : Card) (s : PageState) : PageState :=
  openContentModal s card.title card.fullContent

/-- Number of overlay surfaces currently visible. -/
def openSurfaces (s : PageState) : Nat :=
  (if s.modalDisplay = "block" then 1 else 0) +
  (if s.imageModalDisplay = "block" then 1 else 0)

/-- The close path (src/script.js lines 27-44): hide every `.modal` and
restore page scroll. -/
def closeAllModals (s : PageState) : PageState :=
  { s with modalDisplay := "none", imageModalDisplay := "none", bodyOverflow := "auto" }

/-! ## Lazy image loading (`initImageLazyLoading`, src/script.js lines 214-252) -/

/-- The per-element state of a lazy image: its `src`, its `data-src` attribute,
the `loading`/`loaded` classes, whether the IntersectionObserver is still
watching it, and whether a temp-image fetch is in flight. -/
structure LazyImage where
  src : Option String
  dataSrc : Option String
  cssLoading : Bool
  cssLoaded : Bool
  observed : Bool
  pendingLoad : Bool
  deriving Repr, DecidableEq

/-- The intersection callback (src/script.js lines 219-234): while observed, an
intersecting entry adds the `loading` class, starts the temp-image fetch from
`dataset.src`, and unobserves the element; once unobserved nothing fires. -/
def lazyOnVisible (img : LazyImage) : LazyImage :=
  if img.observed = true then
    { img with cssLoading := true, pendingLoad := true, observed := false }
  else img

/-- The `tempImg.onload` continuation (src/script.js lines 225-230): on fetch
completion, copy `dataset.src` into `src`, swap `loading` for `loaded`, and
remove the `data-src` attribute. -/
def lazyOnLoad (img : LazyImage) : LazyImage :=
  if img.pendingLoad = true then
    { img with src := img.dataSrc, cssLoading := false, cssLoaded := true,
               dataSrc := none, pendingLoad := false }
  else img

/-! ## Chart bootstrap (`initChartLazyLoading` lines 190-211, the window resize
listener lines 291-295, and `renderGlobalChart` lines 298-373)

The lifetime of the chart is a linear protocol: the observer watches the
container; an intersecting entry (with `!window.__chartMounted`) starts
`loadPlotly()` and unobserves; the load continuation runs `renderGlobalChart`,
which calls `Plotly.newPlot` and registers a second resize listener; the
`newPlot` continuation finally sets `window.__chartMounted = true`.  Resize
handlers call `Plotly.Plots.resize` only under the mounted flag. -/

/-- Phase of the chart bootstrap protocol. -/
inductive ChartPhase
  | idle
  | observing
  | loading
  | rendering
  | mounted
  deriving Repr, DecidableEq

/-- State of the chart subsystem: the protocol phase, whether
`renderGlobalChart` has registered its own resize listener, and counters for
charting-library calls. -/
structure ChartState where
  phase : ChartPhase
  innerResizeListener : Bool
  resizeCalls : Nat
  newPlotCalls : Nat
  deriving Repr, DecidableEq

/-- The value of `window.__chartMounted`. -/
def chartMountedB (s : ChartState) : Bool := s.phase == .mounted

/-- Events delivered to the chart subsystem by the event loop. -/
inductive ChartEvent
  | scroll (isIntersecting : Bool)
  | loadResolve
  | plotResolve
  | tabActivate (hostsChart : Bool)
  | resize
  deriving Repr, DecidableEq

/-- One event-loop step of the chart subsystem.

* `scroll`: the IntersectionObserver callback (lines 194-208) fires only while
  the container is observed; under `entry.isIntersecting && !window.__chartMounted`
  it starts `loadPlotly()` and unobserves the container.
* `loadResolve`: the `loadPlotly().then` continuation runs `renderGlobalChart`,
  which issues `Plotly.newPlot` (line 366) and registers the inner resize
  listener (line 370).
* `plotResolve`: the `Plotly.newPlot(...).then` continuation sets
  `window.__chartMounted = true` (line 367).
* `tabActivate` — modelled from the spec: the Tab Controller is not in `src/`;
  spec §4.1 says activating the chart's panel requests a resize only when the
  chart is already mounted.
* `resize`: the top-level listener (lines 291-295) calls `Plotly.Plots.resize`
  only under `window.Plotly && document.getElementById('global-chart') &&
  window.__chartMounted`; the inner listener (lines 370-372) only under
  `window.__chartMounted`.  A mounted chart implies the library is loaded and
  the container was found, so both guards reduce to the mounted flag. -/
def chartStep : ChartEvent → ChartState → ChartState
  | .scroll i, s =>
      if s.phase = .observing ∧ i = true ∧ chartMountedB s = false then
        { s with phase := .loading }
      else s
  | .loadResolve, s =>
      if s.phase = .loading then
        { s with phase := .rendering, innerResizeListener := true,
                 newPlotCalls := s.newPlotCalls + 1 }
      else s
  | .plotResolve, s =>
      if s.phase = .rendering then { s with phase := .mounted } else s
  | .tabActivate h, s =>
      if h = true ∧ chartMountedB s = true then
        { s with resizeCalls := s.resizeCalls + 1 }
      else s
  | .resize, s =>
      { s with resizeCalls := s.resizeCalls
          + (if chartMountedB s = true then 1 else 0)
          + (if s.innerResizeListener = true ∧ chartMountedB s = true then 1 else 0) }

/-- Initial chart state after `initChartLazyLoading`: observing when the
`#global-chart` container exists, otherwise inert (line 192 returns early). -/
def chartInit (hasContainer : Bool) : ChartState :=
  { phase := if hasContainer then .observing else .idle
    innerResizeListener := false
    resizeCalls := 0
    newPlotCalls := 0 }

/-- Run a sequence of events from a state. -/
def chartRun (s : ChartState) (es : List ChartEvent) : ChartState :=
  es.foldl (fun t e => chartStep e t) s

/-- Number of false→true transitions of `window.__chartMounted` along an event
sequence. -/
def mountedFlips (s : ChartState) : List ChartEvent → Nat
  | [] => 0
  | e :: es =>
      (if chartMountedB s = false ∧ chartMountedB (chartStep e s) = true then 1 else 0)
        + mountedFlips (chartStep e s) es

/-! ## Tab controller -/

/-- A panel with its trigger, as the spec's Tab Controller sees it. -/
structure Panel where
  id : String
  visible : Bool
  triggerActive : Bool
  deriving Repr, DecidableEq

/-- Modelled from the spec: the Tab Controller itself is not in `src/` (spec
§4.1 describes it; the shipped script contains no tab code).  `activate(panelId)`
"hides every other panel, marks its trigger inactive, shows the named panel and
marks its trigger active"; "an unknown id is a no-op (fails silently)". -/
def activate (panels : List Panel) (panelId : String) : List Panel :=
  if panels.any (fun q => q.id == panelId) then
    panels.map (fun q =>
      { q with visible := q.id == panelId, triggerActive := q.id == panelId })
  else panels

/-! ## Leaderboard chart definition (`renderGlobalChart`, src/script.js
lines 298-373) -/

/-- The `models` constant (lines 300-314). -/
def models : List String :=
  [ "Grok 4 (web)"
  , "GPT-5 (web)"
  , "Gemini 2.5 pro (web)"
  , "GPT-5–thinking (web)"
  , "DouBao non–thinking (web)"
  , "Qwen3–235B–A22B–2507 (web)"
  , "Yuanbao (DeepSeek V3) (web)"
  , "Yuanbao (DeepSeek R1) (web)"
  , "Yuanbao (T1 thinking) (web)"
  , "DouBao thinking (web)"
  , "Kimi K2 (web)"
  , "DeepSeek R1 (web)"
  , "Ernie X1 (web)" ]

/-- The `scoresPct` constant (line 316). -/
def scoresPct : List ℚ :=
  [68.9, 46.8, 42.6, 41.1, 39.1, 37.4, 30.5, 29.8, 29.8, 29.8, 29.5, 17.2, 16.6]

/-- The derived `scores` constant (line 317): `scoresPct.map(v => v / 100)`. -/
def scores : List ℚ := scoresPct.map (fun v => v / 100)

/-- JS `v.toFixed(1)` for the nonnegative values used here: round to the
nearest tenth (ties up) and print with one digit after the decimal point. -/
def toFixed1 (q : ℚ) : String :=
  toString (⌊q * 10 + 1 / 2⌋ / 10) ++ "." ++ toString (⌊q * 10 + 1 / 2⌋ % 10)

/-- The outside bar labels (line 333): ``scoresPct.map(v => `${v.toFixed(1)}%`)``. -/
def traceText : List String := scoresPct.map (fun v => toFixed1 v ++ "%")

/-- The fields of the Plotly `trace` object (lines 324-337) the claims are
about.  `orient` is the `orientation: 'h'` field. -/
structure BarTrace where
  x : List ℚ
  y : List String
  typ : String
  orient : String
  text : List String
  textposition : String
  deriving Repr, DecidableEq

/-- The fields of the Plotly `layout` object (lines 339-360) the claims are
about. -/
structure ChartLayout where
  yaxisAutorange : String
  xaxisRange : ℚ × ℚ
  xaxisTickformat : String
  deriving Repr, DecidableEq

/-- The `trace` constant built by `renderGlobalChart`. -/
def globalTrace : BarTrace :=
  { x := scores
    y := models
    typ := "bar"
    orient := "h"
    text := traceText
    textposition := "outside" }

/-- The `layout` constant built by `renderGlobalChart`. -/
def globalLayout : ChartLayout :=
  { yaxisAutorange := "reversed"
    xaxisRange := (0, 0.70)
    xaxisTickformat := ".1%" }

/-- Top-to-bottom reading order of the bars of a horizontal bar trace: Plotly
lays category-axis entries bottom-to-top in supply order, and
`autorange: 'reversed'` flips the axis so the supplied order reads
top-to-bottom. -/
def barsTopToBottom (t : BarTrace) (l : ChartLayout) : List String :=
  if l.yaxisAutorange = "reversed" then t.y else t.y.reverse

/-! ## Helper lemmas -/

theorem jsMod_nonneg_pos (a b : Int) (ha : 0 ≤ a) (hb : 0 < b) :
    jsMod a b = some (a % b) := by
  unfold jsMod
  rw [if_neg (by omega), Int.tmod_eq_emod ha (by omega)]

/-- The indicator list produced by `updateCarousel` is `true` exactly at the
cursor position. -/
theorem updateCarousel_indicator_get (c : Int) (k j : Nat) (hj : j < k) :
    (updateCarousel c k).indicatorActive[j]? = some (decide ((↑j : Int) = c)) := by
  unfold updateCarousel
  simp only
  rw [List.getElem?_map, List.getElem?_range hj]
  rfl

/-- The number of `true` entries among the indicators is 1 when the cursor is
in range and 0 otherwise. -/
theorem updateCarousel_countP (c : Int) (k : Nat) :
    ((updateCarousel c k).indicatorActive.countP id)
      = if 0 ≤ c ∧ c < (k : Int) then 1 else 0 := by
  unfold updateCarousel
  simp only
  induction k with
  | zero => rw [if_neg (by omega)]; simp
  | succ m ih =>
    rw [List.range_succ, List.map_append, List.countP_append, ih]
    simp only [List.map_cons, List.map_nil, List.countP_cons, List.countP_nil, id_eq,
      decide_eq_true_eq]
    split_ifs <;> omega

/-- Once `window.__chartMounted` is true, no event clears it. -/
theorem chartMountedB_mono (e : ChartEvent) (s : ChartState)
    (h : chartMountedB s = true) : chartMountedB (chartStep e s) = true := by
  have hp : s.phase = .mounted := by
    simpa [chartMountedB] using h
  cases e with
  | scroll i => simp [chartStep, chartMountedB, hp]
  | loadResolve => simp [chartStep, chartMountedB, hp]
  | plotResolve => simp [chartStep, chartMountedB, hp]
  | tabActivate b =>
      simp only [chartStep, chartMountedB, hp]
      split_ifs <;> simp [hp]
  | resize => simp [chartStep, chartMountedB, hp]

/-- From a mounted state the flag never flips again. -/
theorem mountedFlips_of_mounted (es : List ChartEvent) (s : ChartState)
    (h : chartMountedB s = true) : mountedFlips s es = 0 := by
  induction es generalizing s with
  | nil => rfl
  | cons e es ih =>
    unfold mountedFlips
    rw [if_neg (by simp [h]), ih _ (chartMountedB_mono e s h)]

/-- From any state the flag flips false→true at most once. -/
theorem mountedFlips_le_one (es : List ChartEvent) (s : ChartState) :
    mountedFlips s es ≤ 1 := by
  induction es generalizing s with
  | nil => exact Nat.zero_le 1
  | cons e es ih =>
    unfold mountedFlips
    by_cases h : chartMountedB (chartStep e s) = true
    · rw [mountedFlips_of_mounted es _ h]
      split_ifs <;> omega
    · have h0 : (if chartMountedB s = false ∧ chartMountedB (chartStep e s) = true
          then 1 else 0) = 0 := by
        rw [if_neg]
        intro hc
        exact h hc.2
      rw [h0]
      simpa using ih (chartStep e s)

/-! ## Claims -/

/-- **C1.** Across any sequence of scroll-into-view, tab-activation, resize and
promise-resolution events, `window.__chartMounted` transitions false→true at
most once (it is set only in the continuation after `Plotly.newPlot` resolves),
and while the flag is false a window-resize event performs no charting-library
call (and neither does a tab activation). -/
theorem chart_mount_flag_once (hasContainer : Bool) (es : List ChartEvent) :
    mountedFlips (chartInit hasContainer) es ≤ 1 ∧
    (∀ s : ChartState, chartMountedB s = false →
      (chartStep .resize s).resizeCalls = s.resizeCalls ∧
      (∀ b : Bool, (chartStep (.tabActivate b) s).resizeCalls = s.resizeCalls)) := by
  refine ⟨mountedFlips_le_one es _, ?_⟩
  intro s hs
  constructor
  · simp [chartStep, hs]
  · intro b
    simp [chartStep, hs]

/-- Witness for C1 at a concrete run: the full happy-path event sequence flips
the flag at most once, and a resize in the initial (unmounted) state performs
no library call. -/
theorem chart_mount_flag_once_witness :
    mountedFlips (chartInit true) [ChartEvent.scroll true, ChartEvent.loadResolve,
      ChartEvent.plotResolve, ChartEvent.resize, ChartEvent.tabActivate true] ≤ 1 ∧
    (chartStep ChartEvent.resize (chartInit true)).resizeCalls
      = (chartInit true).resizeCalls :=
  ⟨(chart_mount_flag_once true [ChartEvent.scroll true, ChartEvent.loadResolve,
      ChartEvent.plotResolve, ChartEvent.resize, ChartEvent.tabActivate true]).1,
   ((chart_mount_flag_once true []).2 (chartInit true) (by decide)).1⟩

/-- **C5.** With 13 items, `next()` then `prev()` restores the cursor,
`goTo(0)` then `prev()` lands on `goTo(12)`, and in general `next()` computes
`(cursor + 1) mod 13` and `prev()` computes `(cursor - 1 + 13) mod 13`. -/
theorem carousel_next_prev_inverse (c : Int) (h0 : 0 ≤ c) (h13 : c < 13) :
    ((nextIndex c 13).bind (fun c2 => prevIndex c2 13)) = some c ∧
    prevIndex (goTo 0) 13 = some (goTo 12) ∧
    nextIndex c 13 = some ((c + 1) % 13) ∧
    prevIndex c 13 = some ((c - 1 + 13) % 13) := by
  have hn : nextIndex c 13 = some ((c + 1) % 13) :=
    jsMod_nonneg_pos _ _ (by omega) (by norm_num)
  have hr0 : 0 ≤ (c + 1) % 13 := Int.emod_nonneg _ (by norm_num)
  have hp : prevIndex ((c + 1) % 13) 13 = some (((c + 1) % 13 - 1 + 13) % 13) :=
    jsMod_nonneg_pos _ _ (by omega) (by norm_num)
  refine ⟨?_, by decide, hn, jsMod_nonneg_pos _ _ (by omega) (by norm_num)⟩
  rw [hn, Option.some_bind, hp]
  have h13' : (c + 1) % 13 < 13 := Int.emod_lt_of_pos _ (by norm_num)
  congr 1
  omega

/-- Witness for C5 at cursor 5. -/
theorem carousel_next_prev_inverse_witness :
    ((nextIndex 5 13).bind (fun c2 => prevIndex c2 13)) = some 5 ∧
    prevIndex (goTo 0) 13 = some (goTo 12) ∧
    nextIndex 5 13 = some ((5 + 1) % 13) ∧
    prevIndex 5 13 = some ((5 - 1 + 13) % 13) :=
  carousel_next_prev_inverse 5 (by decide) (by decide)

/-- **C6.** After every cursor change and at the initial `updateCarousel()`
call with cursor 0, the track translation is `cursor * 90` percent, and exactly
the indicator at the cursor's index carries the `active` class. -/
theorem carousel_view_sync (c : Int) (k : Nat) (h0 : 0 ≤ c) (hk : c < (k : Int)) :
    (updateCarousel c k).translatePct = c * 90 ∧
    ((updateCarousel c k).indicatorActive.countP id) = 1 ∧
    (∀ j : Nat, j < k →
      ((updateCarousel c k).indicatorActive[j]? = some true ↔ (↑j : Int) = c)) ∧
    (updateCarousel 0 k).translatePct = 0 ∧
    ((updateCarousel 0 k).indicatorActive.countP id) = 1 ∧
    (updateCarousel 0 k).indicatorActive[0]? = some true := by
  have hkpos : 0 < k := by omega
  refine ⟨rfl, ?_, ?_, by simp [updateCarousel], ?_, ?_⟩
  · rw [updateCarousel_countP, if_pos ⟨h0, hk⟩]
  · intro j hj
    rw [updateCarousel_indicator_get c k j hj]
    simp
  · rw [updateCarousel_countP, if_pos ⟨le_refl 0, by exact_mod_cast hkpos⟩]
  · rw [updateCarousel_indicator_get 0 k 0 hkpos]
    simp

/-- Witness for C6 at cursor 2 among 13 indicators. -/
theorem carousel_view_sync_witness :
    (updateCarousel 2 13).translatePct = 2 * 90 ∧
    ((updateCarousel 2 13).indicatorActive.countP id) = 1 ∧
    ((updateCarousel 2 13).indicatorActive[2]? = some true ↔ ((2 : Nat) : Int) = 2) ∧
    ((updateCarousel 2 13).indicatorActive[5]? = some true ↔ ((5 : Nat) : Int) = 2) ∧
    (updateCarousel 0 13).translatePct = 0 ∧
    ((updateCarousel 0 13).indicatorActive.countP id) = 1 ∧
    (updateCarousel 0 13).indicatorActive[0]? = some true :=
  ⟨(carousel_view_sync 2 13 (by decide) (by decide)).1,
   (carousel_view_sync 2 13 (by decide) (by decide)).2.1,
   (carousel_view_sync 2 13 (by decide) (by decide)).2.2.1 2 (by decide),
   (carousel_view_sync 2 13 (by decide) (by decide)).2.2.1 5 (by decide),
   (carousel_view_sync 2 13 (by decide) (by decide)).2.2.2.1,
   (carousel_view_sync 2 13 (by decide) (by decide)).2.2.2.2.1,
   (carousel_view_sync 2 13 (by decide) (by decide)).2.2.2.2.2⟩

/-- **C10.** The cursor invariant `cursor ∈ [0, length)` is preserved by
`next()` and `prev()` whenever `length ≥ 1`, but with `length = 0` both
handlers compute a modulo by zero (NaN, modelled `none`), which lies in no
valid range — `length ≥ 1` is a required hypothesis. -/
theorem carousel_invariant_needs_nonempty (n c : Int) (hn : 1 ≤ n)
    (h0 : 0 ≤ c) (hc : c < n) :
    (∃ c2, nextIndex c n = some c2 ∧ 0 ≤ c2 ∧ c2 < n) ∧
    (∃ c2, prevIndex c n = some c2 ∧ 0 ≤ c2 ∧ c2 < n) ∧
    (∀ d : Int, nextIndex d 0 = none ∧ prevIndex d 0 = none) := by
  refine ⟨⟨(c + 1) % n, jsMod_nonneg_pos _ _ (by omega) (by omega),
      Int.emod_nonneg _ (by omega), Int.emod_lt_of_pos _ (by omega)⟩,
    ⟨(c - 1 + n) % n, jsMod_nonneg_pos _ _ (by omega) (by omega),
      Int.emod_nonneg _ (by omega), Int.emod_lt_of_pos _ (by omega)⟩, ?_⟩
  intro d
  constructor <;> simp [nextIndex, prevIndex, jsMod]

/-- Witness for C10 with 13 items and cursor 0, and the zero-length NaN case
at cursor 7. -/
theorem carousel_invariant_needs_nonempty_witness :
    (∃ c2, nextIndex 0 13 = some c2 ∧ 0 ≤ c2 ∧ c2 < 13) ∧
    (∃ c2, prevIndex 0 13 = some c2 ∧ 0 ≤ c2 ∧ c2 < 13) ∧
    nextIndex 7 0 = none ∧ prevIndex 7 0 = none :=
  ⟨(carousel_invariant_needs_nonempty 13 0 (by decide) (by decide) (by decide)).1,
   (carousel_invariant_needs_nonempty 13 0 (by decide) (by decide) (by decide)).2.1,
   (carousel_invariant_needs_nonempty 13 0 (by decide) (by decide) (by decide)).2.2 7⟩

/-- Evaluation rule for the label formatter. -/
theorem toFixed1_eq (q : ℚ) (n : Int) (h : ⌊q * 10 + 1 / 2⌋ = n) :
    toFixed1 q = toString (n / 10) ++ "." ++ toString (n % 10) := by
  unfold toFixed1
  rw [h]

/-- **C2.** `renderGlobalChart` builds a horizontal bar trace with exactly 13
bars ordered top-to-bottom as supplied under the reversed y-axis, "Grok 4
(web)" (68.9%) nearest the top and "Ernie X1 (web)" (16.6%) nearest the
bottom, each x-value the percentage divided by 100, and each outside label the
percentage to one decimal place followed by "%". -/
theorem global_chart_bars :
    globalTrace.y.length = 13 ∧ globalTrace.x.length = 13 ∧
    globalTrace.typ = "bar" ∧ globalTrace.orient = "h" ∧
    globalLayout.yaxisAutorange = "reversed" ∧
    barsTopToBottom globalTrace globalLayout = models ∧
    (barsTopToBottom globalTrace globalLayout).head? = some "Grok 4 (web)" ∧
    (barsTopToBottom globalTrace globalLayout).getLast? = some "Ernie X1 (web)" ∧
    globalTrace.x = scoresPct.map (fun v => v / 100) ∧
    globalTrace.x = [689/1000, 468/1000, 426/1000, 411/1000, 391/1000, 374/1000,
      305/1000, 298/1000, 298/1000, 298/1000, 295/1000, 172/1000, 166/1000] ∧
    globalTrace.textposition = "outside" ∧
    globalTrace.text = ["68.9%", "46.8%", "42.6%", "41.1%", "39.1%", "37.4%",
      "30.5%", "29.8%", "29.8%", "29.8%", "29.5%", "17.2%", "16.6%"] := by
  have hbars : barsTopToBottom globalTrace globalLayout = models := by
    unfold barsTopToBottom
    rw [if_pos (show globalLayout.yaxisAutorange = "reversed" from rfl)]
    rfl
  have t01 : toFixed1 (68.9 : ℚ) ++ "%" = "68.9%" := by
    rw [toFixed1_eq 68.9 689 (by norm_num)]
    decide
  have t02 : toFixed1 (46.8 : ℚ) ++ "%" = "46.8%" := by
    rw [toFixed1_eq 46.8 468 (by norm_num)]
    decide
  have t03 : toFixed1 (42.6 : ℚ) ++ "%" = "42.6%" := by
    rw [toFixed1_eq 42.6 426 (by norm_num)]
    decide
  have t04 : toFixed1 (41.1 : ℚ) ++ "%" = "41.1%" := by
    rw [toFixed1_eq 41.1 411 (by norm_num)]
    decide
  have t05 : toFixed1 (39.1 : ℚ) ++ "%" = "39.1%" := by
    rw [toFixed1_eq 39.1 391 (by norm_num)]
    decide
  have t06 : toFixed1 (37.4 : ℚ) ++ "%" = "37.4%" := by
    rw [toFixed1_eq 37.4 374 (by norm_num)]
    decide
  have t07 : toFixed1 (30.5 : ℚ) ++ "%" = "30.5%" := by
    rw [toFixed1_eq 30.5 305 (by norm_num)]
    decide
  have t08 : toFixed1 (29.8 : ℚ) ++ "%" = "29.8%" := by
    rw [toFixed1_eq 29.8 298 (by norm_num)]
    decide
  have t09 : toFixed1 (29.5 : ℚ) ++ "%" = "29.5%" := by
    rw [toFixed1_eq 29.5 295 (by norm_num)]
    decide
  have t10 : toFixed1 (17.2 : ℚ) ++ "%" = "17.2%" := by
    rw [toFixed1_eq 17.2 172 (by norm_num)]
    decide
  have t11 : toFixed1 (16.6 : ℚ) ++ "%" = "16.6%" := by
    rw [toFixed1_eq 16.6 166 (by norm_num)]
    decide
  refine ⟨rfl, rfl, rfl, rfl, rfl, hbars, ?_, ?_, rfl, ?_, rfl, ?_⟩
  · rw [hbars]
    rfl
  · rw [hbars]
    decide
  · show scores = _
    norm_num [scores, scoresPct]
  · show traceText = _
    unfold traceText scoresPct
    simp only [List.map_cons, List.map_nil, t01, t02, t03, t04, t05, t06, t07, t08,
      t09, t10, t11]

/-- Exactly one panel of a duplicate-free panel list carries a given present id. -/
theorem countP_id_eq_one (panels : List Panel) (p : String)
    (hnd : (panels.map Panel.id).Nodup) (hmem : p ∈ panels.map Panel.id) :
    panels.countP (fun q => q.id == p) = 1 := by
  induction panels with
  | nil => simp at hmem
  | cons a l ih =>
    rw [List.map_cons, List.nodup_cons] at hnd
    rw [List.map_cons, List.mem_cons] at hmem
    rw [List.countP_cons]
    by_cases ha : a.id = p
    · have hz : l.countP (fun q => q.id == p) = 0 := by
        rw [List.countP_eq_zero]
        intro q hq hbeq
        have hqp : q.id = p := by simpa using hbeq
        exact hnd.1 (by rw [ha, ← hqp]; exact List.mem_map_of_mem Panel.id hq)
      rw [hz]
      simp [ha]
    · have hm : p ∈ l.map Panel.id := by
        rcases hmem with h | h
        · exact absurd h.symm ha
        · exact h
      rw [ih hnd.2 hm]
      simp [ha]

/-- **C3.** (Tab Controller, modelled from the spec.)  For a known panel id,
`activate` leaves exactly one panel with its visibility flag true, namely the
named one, and every other panel hidden with its trigger inactive; for an
unknown id it changes no panel and throws no error. -/
theorem tab_activate_exclusive (panels : List Panel) (p : String)
    (hnd : (panels.map Panel.id).Nodup) :
    (p ∈ panels.map Panel.id →
      ((activate panels p).countP (fun q => q.visible) = 1 ∧
       (∀ q ∈ activate panels p, q.visible = true → q.id = p) ∧
       (∀ q ∈ activate panels p, q.id ≠ p →
          q.visible = false ∧ q.triggerActive = false))) ∧
    (p ∉ panels.map Panel.id → activate panels p = panels) := by
  constructor
  · intro hmem
    have hany : panels.any (fun q => q.id == p) = true := by
      rw [List.any_eq_true]
      rcases List.mem_map.mp hmem with ⟨q, hq, hid⟩
      exact ⟨q, hq, by simpa using hid⟩
    unfold activate
    rw [if_pos hany]
    refine ⟨?_, ?_, ?_⟩
    · rw [List.countP_map]
      exact countP_id_eq_one panels p hnd hmem
    · intro q hq hvis
      rcases List.mem_map.mp hq with ⟨q0, hq0, rfl⟩
      simpa using hvis
    · intro q hq hne
      rcases List.mem_map.mp hq with ⟨q0, hq0, rfl⟩
      constructor <;> simpa using hne
  · intro hmem
    have hany : panels.any (fun q => q.id == p) = false := by
      rw [List.any_eq_false]
      intro q hq hbeq
      exact hmem (List.mem_map.mpr ⟨q, hq, by simpa using hbeq⟩)
    simp [activate, hany]

/-- Witness for C3 on a concrete two-panel page. -/
theorem tab_activate_exclusive_witness :
    ((activate [⟨"overview", true, true⟩, ⟨"chart", false, false⟩] "chart").countP
        (fun q => q.visible) = 1) ∧
    activate [⟨"overview", true, true⟩, ⟨"chart", false, false⟩] "unknown"
      = [⟨"overview", true, true⟩, ⟨"chart", false, false⟩] :=
  ⟨((tab_activate_exclusive [⟨"overview", true, true⟩, ⟨"chart", false, false⟩]
      "chart" (by decide)).1 (by decide)).1,
   (tab_activate_exclusive [⟨"overview", true, true⟩, ⟨"chart", false, false⟩]
      "unknown" (by decide)).2 (by decide)⟩

/-- **C4.** A bare click on a card without the `data-card="data-distribution"`
marker opens the content modal with the card's title and expanded content; a
bare click on a card carrying the marker changes nothing, and only its inner
read-more affordance opens the modal. -/
theorem card_click_exempt (card : Card) (s : PageState) :
    (card.dataCard ≠ some "data-distribution" →
      (cardClick card s).modalDisplay = "block" ∧
      (cardClick card s).modalTitle = card.title ∧
      (cardClick card s).modalContent = card.fullContent) ∧
    (card.dataCard = some "data-distribution" → cardClick card s = s) ∧
    ((readMoreClick card s).modalDisplay = "block" ∧
     (readMoreClick card s).modalTitle = card.title ∧
     (readMoreClick card s).modalContent = card.fullContent) := by
  refine ⟨?_, ?_, by simp [readMoreClick, openContentModal]⟩
  · intro h
    simp [cardClick, h, openContentModal]
  · intro h
    simp [cardClick, h]

/-- Witness for C4: a plain card opens on a bare click, the exempt card does
not. -/
theorem card_click_exempt_witness :
    ((cardClick ⟨none, "Overview", "Body"⟩ ⟨"", "", "none", "none", "auto"⟩).modalDisplay
        = "block" ∧
     (cardClick ⟨none, "Overview", "Body"⟩ ⟨"", "", "none", "none", "auto"⟩).modalTitle
        = "Overview" ∧
     (cardClick ⟨none, "Overview", "Body"⟩ ⟨"", "", "none", "none", "auto"⟩).modalContent
        = "Body") ∧
    cardClick ⟨some "data-distribution", "Dist", "DistBody"⟩ ⟨"", "", "none", "none", "auto"⟩
      = ⟨"", "", "none", "none", "auto"⟩ :=
  ⟨(card_click_exempt ⟨none, "Overview", "Body"⟩ ⟨"", "", "none", "none", "auto"⟩).1
      (by decide),
   (card_click_exempt ⟨some "data-distribution", "Dist", "DistBody"⟩
      ⟨"", "", "none", "none", "auto"⟩).2.1 rfl⟩

/-- **C7.** Two `open` calls with no intervening close leave exactly one
overlay surface open, displaying the second title and content (overwritten,
never appended), with the page scroll lock set. -/
theorem modal_reopen_overwrites (s : PageState) (t1 c1 t2 c2 : String)
    (h : s.imageModalDisplay ≠ "block") :
    openSurfaces (openContentModal (openContentModal s t1 c1) t2 c2) = 1 ∧
    (openContentModal (openContentModal s t1 c1) t2 c2).modalTitle = t2 ∧
    (openContentModal (openContentModal s t1 c1) t2 c2).modalContent = c2 ∧
    (openContentModal (openContentModal s t1 c1) t2 c2).modalDisplay = "block" ∧
    (openContentModal (openContentModal s t1 c1) t2 c2).bodyOverflow = "hidden" := by
  refine ⟨?_, rfl, rfl, rfl, rfl⟩
  simp [openSurfaces, openContentModal, h]

/-- Witness for C7 from the page's initial state. -/
theorem modal_reopen_overwrites_witness :
    openSurfaces (openContentModal (openContentModal
      ⟨"", "", "none", "none", "auto"⟩ "A" "a") "B" "b") = 1 ∧
    (openContentModal (openContentModal
      ⟨"", "", "none", "none", "auto"⟩ "A" "a") "B" "b").modalTitle = "B" ∧
    (openContentModal (openContentModal
      ⟨"", "", "none", "none", "auto"⟩ "A" "a") "B" "b").modalContent = "b" ∧
    (openContentModal (openContentModal
      ⟨"", "", "none", "none", "auto"⟩ "A" "a") "B" "b").modalDisplay = "block" ∧
    (openContentModal (openContentModal
      ⟨"", "", "none", "none", "auto"⟩ "A" "a") "B" "b").bodyOverflow = "hidden" :=
  modal_reopen_overwrites ⟨"", "", "none", "none", "auto"⟩ "A" "a" "B" "b" (by decide)

/-- **C8.** For a lazy image whose deferred source is present and real source
absent: the visibility callback marks it loading, starts the fetch and
unobserves it; the load continuation sets the real source to the deferred
value, swaps the loading flag for loaded, and removes the deferred source;
afterwards neither callback has any further effect. -/
theorem lazy_image_lifecycle (u : String) (img : LazyImage)
    (hobs : img.observed = true) (hds : img.dataSrc = some u) (hsrc : img.src = none) :
    ((lazyOnVisible img).cssLoading = true ∧ (lazyOnVisible img).pendingLoad = true ∧
     (lazyOnVisible img).observed = false ∧
     (lazyOnVisible img).dataSrc = some u ∧ (lazyOnVisible img).src = none) ∧
    ((lazyOnLoad (lazyOnVisible img)).src = some u ∧
     (lazyOnLoad (lazyOnVisible img)).cssLoaded = true ∧
     (lazyOnLoad (lazyOnVisible img)).cssLoading = false ∧
     (lazyOnLoad (lazyOnVisible img)).dataSrc = none) ∧
    (lazyOnVisible (lazyOnLoad (lazyOnVisible img)) = lazyOnLoad (lazyOnVisible img) ∧
     lazyOnLoad (lazyOnLoad (lazyOnVisible img)) = lazyOnLoad (lazyOnVisible img)) := by
  simp [lazyOnVisible, lazyOnLoad, hobs, hds, hsrc]

/-- Witness for C8 on a concrete lazy image. -/
theorem lazy_image_lifecycle_witness :
    ((lazyOnVisible ⟨none, some "assets/performance.png", false, false, true, false⟩).cssLoading
        = true ∧
     (lazyOnVisible ⟨none, some "assets/performance.png", false, false, true, false⟩).pendingLoad
        = true ∧
     (lazyOnVisible ⟨none, some "assets/performance.png", false, false, true, false⟩).observed
        = false ∧
     (lazyOnVisible ⟨none, some "assets/performance.png", false, false, true, false⟩).dataSrc
        = some "assets/performance.png" ∧
     (lazyOnVisible ⟨none, some "assets/performance.png", false, false, true, false⟩).src
        = none) ∧
    ((lazyOnLoad (lazyOnVisible
        ⟨none, some "assets/performance.png", false, false, true, false⟩)).src
        = some "assets/performance.png" ∧
     (lazyOnLoad (lazyOnVisible
        ⟨none, some "assets/performance.png", false, false, true, false⟩)).cssLoaded = true ∧
     (lazyOnLoad (lazyOnVisible
        ⟨none, some "assets/performance.png", false, false, true, false⟩)).cssLoading = false ∧
     (lazyOnLoad (lazyOnVisible
        ⟨none, some "assets/performance.png", false, false, true, false⟩)).dataSrc = none) ∧
    (lazyOnVisible (lazyOnLoad (lazyOnVisible
        ⟨none, some "assets/performance.png", false, false, true, false⟩))
      = lazyOnLoad (lazyOnVisible
        ⟨none, some "assets/performance.png", false, false, true, false⟩) ∧
     lazyOnLoad (lazyOnLoad (lazyOnVisible
        ⟨none, some "assets/performance.png", false, false, true, false⟩))
      = lazyOnLoad (lazyOnVisible
        ⟨none, some "assets/performance.png", false, false, true, false⟩)) :=
  lazy_image_lifecycle "assets/performance.png"
    ⟨none, some "assets/performance.png", false, false, true, false⟩ rfl rfl rfl

/-- Counterexample to C9 as stated: with the carousel root present but the
prev-button lookup returning nothing, `initFindingsCarousel` raises a
TypeError instead of no-opping. -/
theorem carousel_missing_button_raises :
    (initFindingsCarousel ⟨true, true, false, true⟩).raises = true := by
  decide

/-- **C9 (amended).** When the carousel root lookup returns nothing,
initialization aborts silently without raising; the expand-button wiring logs
a message and aborts when no buttons exist, or when a clicked button's parent
card or card-text element is missing.  (When the carousel root exists but its
inner track or a navigation button is missing, initialization raises instead
of no-opping.) -/
theorem missing_dom_defensive (d : CarouselDom) (h : d.carousel = false) :
    initFindingsCarousel d = .earlyReturn ∧
    initExpandButtons 0 = .loggedNoButtons "No read more buttons found on the page" ∧
    (∀ b : Bool, expandButtonClick false b
        = .loggedError "Could not find parent card-content element") ∧
    expandButtonClick true false = .loggedError "Could not find card-text element" := by
  refine ⟨?_, rfl, fun b => rfl, rfl⟩
  simp [initFindingsCarousel, h]

/-- Witness for the amended C9: a page without the findings carousel. -/
theorem missing_dom_defensive_witness :
    initFindingsCarousel ⟨false, false, false, false⟩ = .earlyReturn ∧
    initExpandButtons 0 = .loggedNoButtons "No read more buttons found on the page" ∧
    expandButtonClick false false
      = .loggedError "Could not find parent card-content element" ∧
    expandButtonClick true false = .loggedError "Could not find card-text element" :=
  ⟨(missing_dom_defensive ⟨false, false, false, false⟩ rfl).1,
   (missing_dom_defensive ⟨false, false, false, false⟩ rfl).2.1,
   (missing_dom_defensive ⟨false, false, false, false⟩ rfl).2.2.1 false,
   (missing_dom_defensive ⟨false, false, false, false⟩ rfl).2.2.2⟩

end FinSearch
